import Mathlib

/-!
Shallow embedding of `app/parse.py`, a Selenium scraper for a demo
e-commerce site.  Element texts are modelled as `List Char`; the numeric
coercions model Python's `float()` and `int()` on decimal numerals; DOM
lookups and browser effects are modelled by explicit data (a `Card`
record per product card, a simulated sequence of button states for the
pagination loop, a name-indexed file system for the CSV writer).
-/

set_option autoImplicit false

namespace Scrape

/-- Exceptions that the Python code can raise or catch:
`NoSuchElementException` from `find_element`, `ValueError` from
`float()` / `int()` (the spec's ParseError), `IndexError` from `[0]` on
an empty list, `TimeoutException` from an explicit wait, and a click
failure such as `ElementClickInterceptedException`. -/
inductive PyError where
  | noSuchElement
  | valueError
  | indexError
  | timeoutError
  | clickIntercepted
  deriving DecidableEq, Repr

deriving instance DecidableEq for Except

/-- Element text and attribute values, modelled as lists of characters. -/
abbrev Text := List Char

/-- Text literal helper. -/
def txt (s : String) : Text := s.data

/-- Strip leading and trailing whitespace, as Python's `float()` and
`int()` do before parsing. -/
def stripWs (l : Text) : Text :=
  ((l.dropWhile Char.isWhitespace).reverse.dropWhile Char.isWhitespace).reverse

/-- Consume one optional leading sign; returns (isNegative, rest). -/
def parseSign : Text → Bool × Text
  | [] => (false, [])
  | c :: rest =>
    if c = '-' then (true, rest)
    else if c = '+' then (false, rest)
    else (false, c :: rest)

/-- Split at the first character satisfying `p`: returns the part before
it and, if found, the part after it. -/
def splitFirst (p : Char → Bool) : Text → Text × Option Text
  | [] => ([], none)
  | c :: rest =>
    if p c then ([], some rest)
    else
      let (a, b) := splitFirst p rest
      (c :: a, b)

/-- No two adjacent underscores. -/
def noDoubleUnderscore : Text → Bool
  | [] => true
  | [_] => true
  | a :: b :: rest => !(a = '_' && b = '_') && noDoubleUnderscore (b :: rest)

/-- A nonempty digit group as Python numeric literals accept it: decimal
digits with single underscores allowed strictly between digits. -/
def validUDigits (l : Text) : Bool :=
  !l.isEmpty &&
  l.all (fun c => c.isDigit || c = '_') &&
  (match l.head? with
   | some c => c.isDigit
   | none => false) &&
  (match l.getLast? with
   | some c => c.isDigit
   | none => false) &&
  noDoubleUnderscore l

/-- Numeric value of a digit group, ignoring underscores. -/
def digitsVal (l : Text) : ℕ :=
  l.foldl (fun n c => if c = '_' then n else 10 * n + (c.toNat - 48)) 0

/-- Number of actual digits in a digit group (underscores excluded). -/
def numDigits (l : Text) : ℕ :=
  (l.filter (fun c => c != '_')).length

/-- Rational value of the numeral `[-] intPart . fracPart e exp`:
the mantissa digits scaled by the signed power of ten. -/
def floatVal (neg : Bool) (ip fp : Text) (ex : ℤ) : ℚ :=
  let m : ℕ := digitsVal ip * 10 ^ numDigits fp + digitsVal fp
  let num : ℤ := (if neg then -(m : ℤ) else (m : ℤ)) * ((10 ^ ex.toNat : ℕ) : ℤ)
  let den : ℕ := 10 ^ numDigits fp * 10 ^ (-ex).toNat
  mkRat num den

/-- Model of Python's `float()` applied to a string, restricted to
decimal numerals (optional sign, digits with optional single point and
optional exponent, underscores between digits, surrounding whitespace);
the special spellings `inf` and `nan` are outside the model.  Returns
`none` exactly when `float()` raises `ValueError` on such inputs; the
value is the exact rational the numeral denotes. -/
def pyFloat? (l : Text) : Option ℚ :=
  let s := stripWs l
  let (neg, s1) := parseSign s
  let (mant, expPart) := splitFirst (fun c => c = 'e' || c = 'E') s1
  let (ip, fpOpt) := splitFirst (fun c => c = '.') mant
  let fp := fpOpt.getD []
  let mantOk :=
    match fpOpt with
    | none => validUDigits ip
    | some fp' =>
      (ip.isEmpty || validUDigits ip) && (fp'.isEmpty || validUDigits fp') &&
        !(ip.isEmpty && fp'.isEmpty)
  if mantOk then
    match expPart with
    | none => some (floatVal neg ip fp 0)
    | some es =>
      let (eneg, es1) := parseSign es
      if validUDigits es1 then
        let ev : ℤ := if eneg then -(digitsVal es1 : ℤ) else (digitsVal es1 : ℤ)
        some (floatVal neg ip fp ev)
      else none
  else none

/-- Model of Python's `int()` applied to a string (base 10): optional
sign then a digit group, surrounding whitespace allowed.  Returns `none`
exactly when `int()` raises `ValueError`. -/
def pyInt? (l : Text) : Option ℤ :=
  let s := stripWs l
  let (neg, s1) := parseSign s
  if validUDigits s1 then
    some (if neg then -(digitsVal s1 : ℤ) else (digitsVal s1 : ℤ))
  else none

/-- Accumulator version of whitespace splitting. -/
def pySplitAux : Text → Text → List Text
  | [], acc => if acc.isEmpty then [] else [acc.reverse]
  | c :: rest, acc =>
    if c.isWhitespace then
      if acc.isEmpty then pySplitAux rest [] else acc.reverse :: pySplitAux rest []
    else pySplitAux rest (c :: acc)

/-- Model of Python's `str.split()` with no arguments: split on runs of
whitespace, discarding empty tokens. -/
def pySplit (l : Text) : List Text := pySplitAux l []

/-- `float(price_text.replace("$", ""))` (parse.py line 62): every `$`
character is removed, then the remainder is coerced to a float;
`ValueError` (ParseError) if the remainder is not numeric. -/
def parse_price (l : Text) : Except PyError ℚ :=
  match pyFloat? (l.filter (fun c => c != '$')) with
  | some q => Except.ok q
  | none => Except.error PyError.valueError

/-- `int(reviews_text.split()[0])` (parse.py line 67): `IndexError` when
the split list is empty, otherwise `int()` of the first token, raising
`ValueError` (ParseError) when it is not numeric. -/
def parse_reviews (l : Text) : Except PyError ℤ :=
  match pySplit l with
  | [] => Except.error PyError.indexError
  | tok :: _ =>
    match pyInt? tok with
    | some n => Except.ok n
    | none => Except.error PyError.valueError

/-- The `Product` dataclass (parse.py lines 20-26): one flat record per
product card.  Field order matches the declaration order, which also
fixes the CSV column order via `Product.__annotations__`. -/
structure Product where
  title : Text
  description : Text
  price : ℚ
  rating : ℕ
  num_of_reviews : ℤ
  deriving DecidableEq, Repr

/-- One rendered product card as the extractor sees it.  Each `Option`
field is the text (or, for `title`, the `title` attribute) of the
corresponding sub-element located by class name; `none` means
`find_element` raises `NoSuchElementException`.  `starCount` is the
length of the `find_elements` result for the star-icon class, which is
total (an empty list when no icons match). -/
structure Card where
  titleEl : Option Text
  descriptionEl : Option Text
  priceEl : Option Text
  starCount : ℕ
  reviewEl : Option Text

/-- Field extraction for one card: the body of the `for card in cards`
loop in `parse_products_on_page` (parse.py lines 56-77).  Lookups and
coercions run in source order (title, description, price, rating,
reviews); the first failure aborts with that exception. -/
def extract_card (c : Card) : Except PyError Product :=
  match c.titleEl with
  | none => Except.error PyError.noSuchElement
  | some title =>
    match c.descriptionEl with
    | none => Except.error PyError.noSuchElement
    | some description =>
      match c.priceEl with
      | none => Except.error PyError.noSuchElement
      | some priceText =>
        match parse_price priceText with
        | Except.error e => Except.error e
        | Except.ok price =>
          let rating := c.starCount
          match c.reviewEl with
          | none => Except.error PyError.noSuchElement
          | some reviewsText =>
            match parse_reviews reviewsText with
            | Except.error e => Except.error e
            | Except.ok num =>
              Except.ok ⟨title, description, price, rating, num⟩

/-- `parse_products_on_page` (parse.py lines 51-79): extract every card
in order, appending records to the list; any exception raised for any
card propagates and the page yields no list at all. -/
def parse_products_on_page : List Card → Except PyError (List Product)
  | [] => Except.ok []
  | c :: rest =>
    match extract_card c with
    | Except.error e => Except.error e
    | Except.ok p =>
      match parse_products_on_page rest with
      | Except.error e => Except.error e
      | Except.ok ps => Except.ok (p :: ps)

/-- What one `find_element` check of the "load more" button observes in
the pagination loop of `load_all_products_from_category` (parse.py
lines 92-108): the button may be absent (`NoSuchElementException`),
present but not displayed, or present and displayed; in the displayed
case the flag records whether the staleness wait after the scripted
click succeeds (`true`) or times out. -/
inductive Check where
  | absent
  | hidden
  | visible (staleOk : Bool)
  deriving DecidableEq, Repr

/-- Terminal status of the pagination loop. -/
inductive DriveResult where
  /-- The loop broke out: all products are loaded (DONE). -/
  | done
  /-- The staleness wait timed out; `TimeoutException` propagates. -/
  | timeout
  /-- The simulated sequence of checks ran out with the loop still
  iterating. -/
  | pending
  deriving DecidableEq, Repr

/-- The `while True` pagination loop of `load_all_products_from_category`
(parse.py lines 92-108), driven by a simulated sequence of button
checks.  Returns the number of button activations performed and how the
loop ended: absent or hidden button breaks the loop (DONE); a displayed
button is clicked and, after a successful staleness wait, the loop
re-checks; a failed staleness wait raises after that click. -/
def drive : List Check → ℕ × DriveResult
  | [] => (0, DriveResult.pending)
  | Check.absent :: _ => (0, DriveResult.done)
  | Check.hidden :: _ => (0, DriveResult.done)
  | Check.visible staleOk :: rest =>
    if staleOk then ((drive rest).1 + 1, (drive rest).2)
    else (1, DriveResult.timeout)

/-- Decimal digits of a natural number, most significant first, with a
fuel argument for structural recursion (`fuel ≥ 1` suffices for `n <
10^fuel`). -/
def natTextAux : ℕ → ℕ → Text
  | 0, _ => []
  | fuel + 1, n =>
    if n < 10 then [Char.ofNat (48 + n)]
    else natTextAux fuel (n / 10) ++ [Char.ofNat (48 + n % 10)]

/-- Decimal rendering of a natural number. -/
def natText (n : ℕ) : Text := natTextAux (n + 1) n

/-- Decimal rendering of an integer, as Python `str()` prints an `int`. -/
def intText : ℤ → Text
  | Int.ofNat n => natText n
  | Int.negSucc n => '-' :: natText (n + 1)

/-- Least `k ≤ fuel` (counting from `k0`) with `d ∣ 10 ^ k`. -/
def decExpAux (d : ℕ) : ℕ → ℕ → Option ℕ
  | _, 0 => none
  | k, fuel + 1 => if 10 ^ k % d = 0 then some k else decExpAux d (k + 1) fuel

/-- Left-pad with zeros to length `k`. -/
def padZeros (k : ℕ) (l : Text) : Text :=
  List.replicate (k - l.length) '0' ++ l

/-- Models Python `str()` on a float whose value is an exact decimal
fraction (the only prices this program produces): an integral value
prints with a trailing `.0`, otherwise the shortest exact decimal
expansion is printed.  Rationals outside that range (not produced here)
fall back to a fraction spelling. -/
def pyFloatStr (q : ℚ) : Text :=
  let sign : Text := if q < 0 then ['-'] else []
  let n := q.num.natAbs
  let d := q.den
  match decExpAux d 0 64 with
  | some 0 => sign ++ natText n ++ ['.', '0']
  | some k =>
    let m := n * 10 ^ k / d
    sign ++ natText (m / 10 ^ k) ++ ['.'] ++ padZeros k (natText (m % 10 ^ k))
  | none => sign ++ natText n ++ ['/'] ++ natText d

/-- Quote one CSV field as Python's `csv.writer` does with the default
dialect (QUOTE_MINIMAL): if the field contains the delimiter, the quote
character, or a line-break character, wrap it in double quotes and
double every embedded quote; otherwise emit it unchanged. -/
def csvField (s : Text) : Text :=
  if s.any (fun c => c = ',' || c = '"' || c = '\r' || c = '\n') then
    '"' :: s.foldr (fun c acc => if c = '"' then '"' :: '"' :: acc else c :: acc) ['"']
  else s

/-- One CSV row: fields joined by the comma delimiter, terminated by the
default `\r\n` line terminator of `csv.writer`. -/
def renderRow (fields : List Text) : Text :=
  List.intercalate [','] (fields.map csvField) ++ ['\r', '\n']

/-- `writer.writerow`: append one rendered row to the file content. -/
def writeRow (content : Text) (fields : List Text) : Text :=
  content ++ renderRow fields

/-- The header fields: `Product.__annotations__.keys()` in declaration
order (parse.py line 116). -/
def headerFields : List Text :=
  [txt "title", txt "description", txt "price", txt "rating", txt "num_of_reviews"]

/-- `astuple(product)` serialized field by field as `csv.writer` does:
strings pass through, numbers via `str()`. -/
def productFields (p : Product) : List Text :=
  [p.title, p.description, pyFloatStr p.price, natText p.rating, intText p.num_of_reviews]

/-- The working directory and the browser session: file contents by
name, plus how many times `driver.quit()` has run. -/
structure World where
  fs : String → Option Text
  quitCount : ℕ

/-- The full text `save_to_csv` produces: starting from the empty
content of a file opened in mode "w", `writerow` of the header then
`writerows` of the product tuples. -/
def csvText (products : List Product) : Text :=
  (products.map productFields).foldl writeRow (writeRow [] headerFields)

/-- `save_to_csv` (parse.py lines 113-118): open the path in mode "w"
(truncating any existing file), write the header row, then one row per
product in list order. -/
def save_to_csv (filename : String) (products : List Product) (w : World) : World :=
  { fs := fun n => if n = filename then some (csvText products) else w.fs n
    quitCount := w.quitCount }

/-- `urljoin` (parse.py lines 16-17, 124-131): in this program the base
always ends with a slash and the second argument is a relative path, so
the join is string concatenation. -/
def urljoin (base url : String) : String := base ++ url

/-- `BASE_URL` (parse.py line 16). -/
def BASE_URL : String := "https://webscraper.io/"

/-- `HOME_URL` (parse.py line 17). -/
def HOME_URL : String := urljoin BASE_URL "test-sites/e-commerce/more/"

/-- The `pages` dict of `get_all_products` (parse.py lines 124-131),
as the ordered association list Python iterates over. -/
def pages : List (String × String) :=
  [("home.csv", HOME_URL),
   ("computers.csv", urljoin HOME_URL "computers"),
   ("laptops.csv", urljoin HOME_URL "computers/laptops"),
   ("tablets.csv", urljoin HOME_URL "computers/tablets"),
   ("phones.csv", urljoin HOME_URL "phones"),
   ("touch.csv", urljoin HOME_URL "phones/touch")]

/-- The `for filename, url in pages.items()` loop inside the `try`
block of `get_all_products` (parse.py lines 133-136), with the outcome
of `load_all_products_from_category` for each URL supplied by `fetch`:
each entry in order fetches its category and saves the CSV; the first
raised exception stops the loop and escapes the `try` block. -/
def runPages (fetch : String → Except PyError (List Product)) :
    List (String × String) → World → World × Option PyError
  | [], w => (w, none)
  | (filename, url) :: rest, w =>
    match fetch url with
    | Except.error e => (w, some e)
    | Except.ok ps => runPages fetch rest (save_to_csv filename ps w)

/-- `get_all_products` (parse.py lines 121-138): run the per-category
loop inside `try`, then the `finally` block runs `driver.quit()` exactly
once on both the normal and the exceptional path; an escaped exception
is reported alongside the final world. -/
def get_all_products (fetch : String → Except PyError (List Product))
    (fs0 : String → Option Text) : World × Option PyError :=
  let r := runPages fetch pages ⟨fs0, 0⟩
  ({ r.1 with quitCount := r.1.quitCount + 1 }, r.2)

/-- `accept_cookies` (parse.py lines 40-49), with the environment
supplied as data: `waitResult` is the outcome of the 3-second
`WebDriverWait` for the cookie button (`Except.error` = the wait raised
`TimeoutException`), and `click` is the outcome `button.click()` would
have.  Only `TimeoutException` is caught; the click outcome, including
any exception it raises, passes through to the caller. -/
def accept_cookies (waitResult : Except Unit Unit)
    (click : Except PyError Unit) : Except PyError Unit :=
  match waitResult with
  | Except.error _ => Except.ok ()
  | Except.ok _ => click

/-- A concrete well-formed card with four star icons. -/
def card4 : Card :=
  ⟨some (txt "Test product"), some (txt "A short description"),
   some (txt "$20.50"), 4, some (txt "10 reviews")⟩

/-- The record `extract_card` produces for `card4`. -/
def expected4 : Product :=
  ⟨txt "Test product", txt "A short description", mkRat 41 2, 4, 10⟩

/-- A concrete card whose every field extracts, but which carries six
star-icon elements. -/
def card6 : Card :=
  ⟨some (txt "T"), some (txt "D"), some (txt "$10.00"), 6, some (txt "3 reviews")⟩

/-- The record `extract_card` produces for `card6`: rating 6. -/
def expected6 : Product :=
  ⟨txt "T", txt "D", mkRat 10 1, 6, 3⟩

/-- A simulated per-category outcome for the orchestrator: the third
category (laptops) raises ParseError, every other category loads an
empty listing. -/
def cfetch (url : String) : Except PyError (List Product) :=
  if url = urljoin HOME_URL "computers/laptops" then Except.error PyError.valueError
  else Except.ok []

/-- An empty working directory. -/
def cfs0 : String → Option Text := fun _ => none

/-- The first two `pages` entries, which succeed under `cfetch`. -/
def cdone : List (String × String) :=
  [("home.csv", HOME_URL), ("computers.csv", urljoin HOME_URL "computers")]

/-- The `pages` entries after the failing laptops entry. -/
def crest : List (String × String) :=
  [("tablets.csv", urljoin HOME_URL "computers/tablets"),
   ("phones.csv", urljoin HOME_URL "phones"),
   ("touch.csv", urljoin HOME_URL "phones/touch")]

/-- A concrete product for the CSV-writer witness. -/
def p0 : Product := ⟨txt "A", txt "desc", mkRat 41 2, 4, 10⟩

/-- A working directory holding a stale file at the output path and an
unrelated file. -/
def w0 : World :=
  ⟨fun n =>
    if n = "out.csv" then some (txt "OLD")
    else if n = "other.csv" then some (txt "KEEP")
    else none, 7⟩

example : pyFloat? (txt "12.5") = some (mkRat 25 2) := by decide
example : pyFloat? (txt "1,234.50") = none := by decide
example : pyFloat? (txt " -3e2 ") = some (mkRat (-300) 1) := by decide
example : pyFloat? (txt "1_0.5") = some (mkRat 21 2) := by decide
example : pyFloat? (txt "") = none := by decide
example : pyFloat? (txt ".5") = some (mkRat 1 2) := by decide
example : pyFloat? (txt "1.") = some (mkRat 1 1) := by decide
example : pyFloat? (txt ".") = none := by decide
example : pyInt? (txt "12") = some 12 := by decide
example : pyInt? (txt "12.0") = none := by decide
example : pySplit (txt " 12  reviews ") = [txt "12", txt "reviews"] := by decide
example : parse_price (txt "$1,234.50") = Except.error PyError.valueError := by decide
example : parse_price (txt "1$0") = Except.ok (mkRat 10 1) := by decide
example : parse_reviews (txt "12 reviews") = Except.ok 12 := by decide
example : parse_reviews (txt "  ") = Except.error PyError.indexError := by decide

lemma digit_not_ws {c : Char} (h : c.isDigit = true) : c.isWhitespace = false := by
  rcases hw : c.isWhitespace with _ | _
  · rfl
  · exfalso
    simp [Char.isWhitespace] at hw
    rcases hw with ((rfl | rfl) | rfl) | rfl <;> exact absurd h (by decide)

lemma digit_not_dash {c : Char} (h : c.isDigit = true) : c ≠ '-' := by
  rintro rfl; exact absurd h (by decide)

lemma digit_not_plus {c : Char} (h : c.isDigit = true) : c ≠ '+' := by
  rintro rfl; exact absurd h (by decide)

lemma digit_not_und {c : Char} (h : c.isDigit = true) : c ≠ '_' := by
  rintro rfl; exact absurd h (by decide)

lemma dropWhile_ws_digits {l : Text} (h : l.all Char.isDigit = true) :
    l.dropWhile Char.isWhitespace = l := by
  cases l with
  | nil => rfl
  | cons c cs =>
    simp only [List.all_cons, Bool.and_eq_true] at h
    simp [List.dropWhile_cons, digit_not_ws h.1]

lemma stripWs_digits {l : Text} (h : l.all Char.isDigit = true) :
    stripWs l = l := by
  unfold stripWs
  rw [dropWhile_ws_digits h, dropWhile_ws_digits (by simpa using h), List.reverse_reverse]

lemma parseSign_digits {l : Text} (h : l.all Char.isDigit = true) :
    parseSign l = (false, l) := by
  cases l with
  | nil => rfl
  | cons c cs =>
    simp only [List.all_cons, Bool.and_eq_true] at h
    simp [parseSign, digit_not_dash h.1, digit_not_plus h.1]

lemma noDoubleUnderscore_of_digits :
    ∀ {l : Text}, l.all Char.isDigit = true → noDoubleUnderscore l = true
  | [], _ => rfl
  | [_], _ => rfl
  | a :: b :: rest, h => by
    simp only [List.all_cons, Bool.and_eq_true] at h
    have hr : noDoubleUnderscore (b :: rest) = true :=
      noDoubleUnderscore_of_digits (by simp [List.all_cons, h.2.1, h.2.2])
    simp [noDoubleUnderscore, digit_not_und h.1, hr]

lemma validUDigits_digits {l : Text} (hne : l ≠ []) (h : l.all Char.isDigit = true) :
    validUDigits l = true := by
  cases l with
  | nil => exact absurd rfl hne
  | cons c cs =>
    simp only [List.all_cons, Bool.and_eq_true] at h
    have hall : (c :: cs).all Char.isDigit = true := by simp [List.all_cons, h.1, h.2]
    have hlast : ∀ a, (c :: cs).getLast? = some a → a.isDigit = true := by
      intro a ha
      obtain ⟨hne2, heq⟩ :=
        List.mem_getLast?_eq_getLast (l := c :: cs) (x := a) (by rw [ha]; rfl)
      subst heq
      exact List.all_eq_true.mp hall _ (List.getLast_mem hne2)
    have hmix : ∀ x ∈ cs, x.isDigit = true ∨ x = '_' := by
      intro x hx
      exact Or.inl (List.all_eq_true.mp hall x (List.mem_cons_of_mem c hx))
    unfold validUDigits
    cases hg : (c :: cs).getLast? with
    | none => simp at hg
    | some a =>
      simp [List.all_cons, h.1, noDoubleUnderscore_of_digits hall, hg, hlast a hg]
      exact hmix

lemma pyInt_digits {l : Text} (hne : l ≠ []) (h : l.all Char.isDigit = true) :
    pyInt? l = some ((digitsVal l : ℕ) : ℤ) := by
  simp [pyInt?, stripWs_digits h, parseSign_digits h, validUDigits_digits hne h]

lemma pySplit_ws : ∀ {l : Text}, l.all Char.isWhitespace = true → pySplit l = []
  | [], _ => rfl
  | c :: rest, h => by
    simp only [List.all_cons, Bool.and_eq_true] at h
    have hr : pySplit rest = [] := pySplit_ws h.2
    simp [pySplit, pySplitAux, h.1]
    simpa [pySplit] using hr

lemma extract_rating {c : Card} {p : Product} (h : extract_card c = Except.ok p) :
    p.rating = c.starCount := by
  unfold extract_card at h
  repeat' split at h
  all_goals simp_all
  rw [← h]

lemma extract_ok_forall₂ :
    ∀ (cards : List Card) (ps : List Product),
      parse_products_on_page cards = Except.ok ps →
      List.Forall₂ (fun c p => extract_card c = Except.ok p) cards ps := by
  intro cards
  induction cards with
  | nil =>
    intro ps h
    simp [parse_products_on_page] at h
    simp [← h]
  | cons c rest ih =>
    intro ps h
    cases hc : extract_card c with
    | error e => simp [parse_products_on_page, hc] at h
    | ok p =>
      cases hr : parse_products_on_page rest with
      | error e => simp [parse_products_on_page, hc, hr] at h
      | ok ps' =>
        simp [parse_products_on_page, hc, hr] at h
        rw [← h]
        exact List.Forall₂.cons hc (ih ps' hr)

lemma parse_error_mem :
    ∀ (cards : List Card) (e : PyError),
      parse_products_on_page cards = Except.error e →
      ∃ c ∈ cards, extract_card c = Except.error e := by
  intro cards
  induction cards with
  | nil => intro e h; simp [parse_products_on_page] at h
  | cons c rest ih =>
    intro e h
    cases hc : extract_card c with
    | error e' =>
      simp [parse_products_on_page, hc] at h
      exact ⟨c, List.mem_cons_self c rest, by rw [hc, h]⟩
    | ok p =>
      cases hr : parse_products_on_page rest with
      | error e' =>
        simp [parse_products_on_page, hc, hr] at h
        obtain ⟨c', hc', hce⟩ := ih e' hr
        exact ⟨c', List.mem_cons_of_mem c hc', by rw [hce, h]⟩
      | ok ps' => simp [parse_products_on_page, hc, hr] at h

lemma foldl_writeRow :
    ∀ (rows : List (List Text)) (a : Text),
      rows.foldl writeRow a = a ++ (rows.map renderRow).flatten := by
  intro rows
  induction rows with
  | nil => intro a; simp
  | cons r rs ih =>
    intro a
    simp only [List.foldl_cons, ih, writeRow, List.map_cons, List.flatten_cons,
      List.append_assoc]

lemma csvText_eq (products : List Product) :
    csvText products = ((headerFields :: products.map productFields).map renderRow).flatten := by
  simp [csvText, foldl_writeRow, writeRow]

lemma runPages_quitCount (fetch : String → Except PyError (List Product)) :
    ∀ (l : List (String × String)) (w : World),
      ((runPages fetch l w).1).quitCount = w.quitCount := by
  intro l
  induction l with
  | nil => intro w; rfl
  | cons p rest ih =>
    intro w
    obtain ⟨filename, url⟩ := p
    cases h : fetch url with
    | error e => simp [runPages, h]
    | ok ps => simp [runPages, h, ih, save_to_csv]

lemma runPages_fail (fetch : String → Except PyError (List Product))
    (fname url : String) (e : PyError) (hfail : fetch url = Except.error e) :
    ∀ (done : List (String × String)) (rest : List (String × String)) (w : World),
      (∀ p ∈ done, ∃ ps, fetch p.2 = Except.ok ps) →
      (done.map Prod.fst).Nodup →
      ∃ w', runPages fetch (done ++ (fname, url) :: rest) w = (w', some e) ∧
        w'.quitCount = w.quitCount ∧
        (∀ name, name ∉ done.map Prod.fst → w'.fs name = w.fs name) ∧
        (∀ p ps, p ∈ done → fetch p.2 = Except.ok ps → w'.fs p.1 = some (csvText ps)) := by
  intro done
  induction done with
  | nil =>
    intro rest w _ _
    refine ⟨w, ?_, rfl, fun _ _ => rfl, fun p ps hp => absurd hp (List.not_mem_nil p)⟩
    simp [runPages, hfail]
  | cons d ds ih =>
    intro rest w hok hnd
    obtain ⟨dn, du⟩ := d
    obtain ⟨ps0, hps0⟩ := hok (dn, du) (List.mem_cons_self _ _)
    simp only [List.map_cons, List.nodup_cons] at hnd
    obtain ⟨w', hrun, hquit, hnames, hdone⟩ :=
      ih rest (save_to_csv dn ps0 w)
        (fun p hp => hok p (List.mem_cons_of_mem _ hp)) hnd.2
    refine ⟨w', ?_, ?_, ?_, ?_⟩
    · simpa [runPages, hps0] using hrun
    · simpa [save_to_csv] using hquit
    · intro name hname
      simp only [List.map_cons, List.mem_cons, not_or] at hname
      rw [hnames name hname.2]
      simp [save_to_csv, hname.1]
    · intro p ps hp hps
      rcases List.mem_cons.mp hp with rfl | hp2
      · obtain rfl : ps0 = ps := Except.ok.inj (hps0.symm.trans hps)
        rw [hnames dn hnd.1]
        simp [save_to_csv]
      · exact hdone p ps hp2 hps

lemma pages_names_nodup : (pages.map Prod.fst).Nodup := by decide

/-- C1: for a simulated category page whose load-more button is present
and displayed for `N` consecutive checks (each click's staleness wait
succeeding) and then absent, the pagination loop of
`load_all_products_from_category` performs exactly `N` activations and
terminates in the DONE state; for a page whose button is present but not
displayed on the first check, it performs zero activations and
terminates DONE immediately. -/
theorem drive_pagination_spec :
    (∀ N : ℕ,
      drive (List.replicate N (Check.visible true) ++ [Check.absent]) =
        (N, DriveResult.done)) ∧
    (∀ rest : List Check, drive (Check.hidden :: rest) = (0, DriveResult.done)) := by
  constructor
  · intro N
    induction N with
    | zero => rfl
    | succ n ih => simp [List.replicate_succ, drive, ih]
  · intro rest; rfl

/-- C2 counterexample: on `"$1,234.50"` the price coercion raises
ParseError (Python `float()` rejects the comma, which `replace("$", "")`
does not remove), instead of returning the written value 1234.50. -/
theorem parse_price_comma_cex :
    parse_price (txt "$1,234.50") = Except.error PyError.valueError ∧
    parse_price (txt "$1,234.50") ≠ Except.ok (mkRat 2469 2) := by
  decide

/-- C2 (amended): for every price string whose remainder after deleting
the `$` characters is a decimal numeral, parsing yields exactly the
written numeric value; and for every price string whose remainder is not
numeric — including `"$1,234.50"`-style strings with a thousands
separator — the price coercion raises ParseError. -/
theorem parse_price_amended_spec :
    (∀ (t : Text) (q : ℚ), pyFloat? (t.filter (fun c => c != '$')) = some q →
       parse_price t = Except.ok q) ∧
    (∀ t : Text, pyFloat? (t.filter (fun c => c != '$')) = none →
       parse_price t = Except.error PyError.valueError) := by
  constructor
  · intro t q h; simp [parse_price, h]
  · intro t h; simp [parse_price, h]

/-- C2 witness: `"$12.99"` parses to 12.99 and `"$abc"` raises
ParseError. -/
theorem parse_price_amended_witness :
    parse_price (txt "$12.99") = Except.ok (mkRat 1299 100) ∧
    parse_price (txt "$abc") = Except.error PyError.valueError :=
  ⟨parse_price_amended_spec.1 (txt "$12.99") (mkRat 1299 100) (by decide),
   parse_price_amended_spec.2 (txt "$abc") (by decide)⟩

/-- C3: page extraction either returns exactly one complete record per
card (in card order), or some card's field extraction fails and the
whole page yields no records, only that error — no partial records, no
per-card recovery. -/
theorem parse_products_all_or_nothing (cards : List Card) :
    (∃ ps, parse_products_on_page cards = Except.ok ps ∧
       ps.length = cards.length ∧
       List.Forall₂ (fun c p => extract_card c = Except.ok p) cards ps) ∨
    (∃ e, parse_products_on_page cards = Except.error e ∧
       ∃ c ∈ cards, extract_card c = Except.error e) := by
  cases h : parse_products_on_page cards with
  | ok ps =>
    exact Or.inl ⟨ps, rfl, (extract_ok_forall₂ cards ps h).length_eq.symm,
      extract_ok_forall₂ cards ps h⟩
  | error e => exact Or.inr ⟨e, rfl, parse_error_mem cards e h⟩

/-- C4: for every run of `get_all_products`, the driver is quit exactly
once; and when processing of a category entry raises while all earlier
entries succeeded, the error escapes, the earlier entries' CSV files
hold their serialized products, and the failing and all later entries'
files are untouched. -/
theorem get_all_products_spec :
    (∀ (fetch : String → Except PyError (List Product)) (fs0 : String → Option Text),
       (get_all_products fetch fs0).1.quitCount = 1) ∧
    (∀ (fetch : String → Except PyError (List Product)) (fs0 : String → Option Text)
       (done rest : List (String × String)) (fname url : String) (e : PyError),
       pages = done ++ (fname, url) :: rest →
       (∀ p ∈ done, ∃ ps, fetch p.2 = Except.ok ps) →
       fetch url = Except.error e →
       ((get_all_products fetch fs0).2 = some e ∧
        (∀ p ps, p ∈ done → fetch p.2 = Except.ok ps →
           (get_all_products fetch fs0).1.fs p.1 = some (csvText ps)) ∧
        (∀ p, p ∈ (fname, url) :: rest →
           (get_all_products fetch fs0).1.fs p.1 = fs0 p.1))) := by
  constructor
  · intro fetch fs0
    simp [get_all_products, runPages_quitCount]
  · intro fetch fs0 done rest fname url e hsplit hok hfail
    have hnd := pages_names_nodup
    rw [hsplit] at hnd
    simp only [List.map_append, List.map_cons] at hnd
    obtain ⟨hndDone, hndRest, hdisj⟩ := List.nodup_append.mp hnd
    obtain ⟨w', hrun, hquit, hnames, hdone⟩ :=
      runPages_fail fetch fname url e hfail done rest ⟨fs0, 0⟩ hok hndDone
    have hga : get_all_products fetch fs0 =
        ({ w' with quitCount := w'.quitCount + 1 }, some e) := by
      simp [get_all_products, hsplit, hrun]
    refine ⟨by rw [hga], ?_, ?_⟩
    · intro p ps hp hps
      rw [hga]
      exact hdone p ps hp hps
    · intro p hp
      rw [hga]
      have hnotin : p.1 ∉ done.map Prod.fst := by
        intro hmem
        exact hdisj hmem (by simpa using List.mem_map_of_mem Prod.fst hp)
      exact hnames p.1 hnotin

/-- C4 witness: with the laptops category (entry 3 of 6) raising
ParseError and all others succeeding with empty listings, the error
escapes, `home.csv` and `computers.csv` are written, `laptops.csv` and
`touch.csv` are not, and the driver is quit exactly once. -/
theorem get_all_products_spec_witness :
    (get_all_products cfetch cfs0).2 = some PyError.valueError ∧
    (get_all_products cfetch cfs0).1.quitCount = 1 ∧
    (get_all_products cfetch cfs0).1.fs "home.csv" = some (csvText []) ∧
    (get_all_products cfetch cfs0).1.fs "computers.csv" = some (csvText []) ∧
    (get_all_products cfetch cfs0).1.fs "laptops.csv" = none ∧
    (get_all_products cfetch cfs0).1.fs "touch.csv" = none := by
  have hok : ∀ p ∈ cdone, ∃ ps, cfetch p.2 = Except.ok ps := by
    intro p hp
    rcases List.mem_cons.mp hp with rfl | hp2
    · exact ⟨[], by decide⟩
    · rcases List.mem_cons.mp hp2 with rfl | hp3
      · exact ⟨[], by decide⟩
      · exact absurd hp3 (List.not_mem_nil p)
  have h := get_all_products_spec.2 cfetch cfs0 cdone crest "laptops.csv"
    (urljoin HOME_URL "computers/laptops") PyError.valueError rfl hok (by decide)
  refine ⟨h.1, get_all_products_spec.1 cfetch cfs0, ?_, ?_, ?_, ?_⟩
  · exact h.2.1 ("home.csv", HOME_URL) [] (by decide) (by decide)
  · exact h.2.1 ("computers.csv", urljoin HOME_URL "computers") [] (by decide) (by decide)
  · exact (h.2.2 ("laptops.csv", urljoin HOME_URL "computers/laptops") (by decide)).trans
      (by decide)
  · exact (h.2.2 ("touch.csv", urljoin HOME_URL "phones/touch") (by decide)).trans (by decide)

/-- C5: `save_to_csv` stores at the given path exactly the header row
`title,description,price,rating,num_of_reviews` followed by one row per
record in list order, each row the record's five fields in column order
joined by commas, replacing whatever the path previously held (the
result does not depend on the prior content) and leaving every other
path unchanged. -/
theorem save_to_csv_spec :
    ∀ (filename : String) (products : List Product) (w : World),
      (save_to_csv filename products w).fs filename =
          some (((headerFields :: products.map productFields).map renderRow).flatten) ∧
      renderRow headerFields =
          txt "title,description,price,rating,num_of_reviews" ++ ['\r', '\n'] ∧
      (∀ p : Product, productFields p =
          [p.title, p.description, pyFloatStr p.price, natText p.rating,
           intText p.num_of_reviews]) ∧
      (∀ name, name ≠ filename → (save_to_csv filename products w).fs name = w.fs name) ∧
      (save_to_csv filename products w).quitCount = w.quitCount := by
  intro filename products w
  refine ⟨?_, by decide, fun p => rfl, ?_, rfl⟩
  · simp [save_to_csv, csvText_eq]
  · intro name hname
    simp [save_to_csv, hname]

/-- C5 witness: writing one product to `out.csv` over a stale file
replaces its content with header plus one row and leaves `other.csv`
alone. -/
theorem save_to_csv_spec_witness :
    (save_to_csv "out.csv" [p0] w0).fs "other.csv" = some (txt "KEEP") ∧
    (save_to_csv "out.csv" [p0] w0).fs "out.csv" =
      some (((headerFields :: [p0].map productFields).map renderRow).flatten) :=
  ⟨((save_to_csv_spec "out.csv" [p0] w0).2.2.2.1 "other.csv" (by decide)).trans (by decide),
   (save_to_csv_spec "out.csv" [p0] w0).1⟩

/-- C6: whenever the review-count text splits into a first token the
coercion returns exactly `int()` of that token — the token's written
value when it is a decimal digit string — and raises ParseError when the
token is not numeric. -/
theorem parse_reviews_first_token_spec :
    (∀ (t tok : Text) (rest : List Text), pySplit t = tok :: rest →
       ∀ n : ℤ, pyInt? tok = some n → parse_reviews t = Except.ok n) ∧
    (∀ (t tok : Text) (rest : List Text), pySplit t = tok :: rest →
       pyInt? tok = none → parse_reviews t = Except.error PyError.valueError) ∧
    (∀ tok : Text, tok ≠ [] → tok.all Char.isDigit = true →
       pyInt? tok = some ((digitsVal tok : ℕ) : ℤ)) := by
  refine ⟨?_, ?_, fun tok hne h => pyInt_digits hne h⟩
  · intro t tok rest h n hn
    simp [parse_reviews, h, hn]
  · intro t tok rest h hn
    simp [parse_reviews, h, hn]

/-- C6 witness: `"12 reviews"` yields 12; `"abc reviews"` raises
ParseError. -/
theorem parse_reviews_first_token_witness :
    parse_reviews (txt "12 reviews") = Except.ok 12 ∧
    parse_reviews (txt "abc reviews") = Except.error PyError.valueError ∧
    pyInt? (txt "12") = some ((digitsVal (txt "12") : ℕ) : ℤ) :=
  ⟨parse_reviews_first_token_spec.1 (txt "12 reviews") (txt "12") [txt "reviews"]
     (by decide) 12 (by decide),
   parse_reviews_first_token_spec.2.1 (txt "abc reviews") (txt "abc") [txt "reviews"]
     (by decide) (by decide),
   parse_reviews_first_token_spec.2.2 (txt "12") (by decide) (by decide)⟩

/-- C7 counterexample: a card carrying six star-icon elements extracts
successfully with rating 6, outside the claimed 0-5 range — the code
never bounds the count. -/
theorem extract_rating_bound_cex :
    extract_card card6 = Except.ok expected6 ∧ ¬ expected6.rating ≤ 5 := by
  decide

/-- C7 (amended): for every card that extracts successfully, the
record's rating equals the count of star-icon sub-elements of that card,
and across a whole page each record's rating equals its own card's star
count regardless of position; the code does not enforce the 0-5 range,
which holds only when the card has at most five star icons. -/
theorem extract_rating_spec :
    (∀ (c : Card) (p : Product), extract_card c = Except.ok p → p.rating = c.starCount) ∧
    (∀ (cards : List Card) (ps : List Product),
       parse_products_on_page cards = Except.ok ps →
       List.Forall₂ (fun c p => p.rating = c.starCount) cards ps) := by
  refine ⟨fun c p h => extract_rating h, ?_⟩
  intro cards ps h
  exact List.Forall₂.imp (fun a b hab => extract_rating hab) (extract_ok_forall₂ cards ps h)

/-- C7 witness: the four-star card extracts with rating equal to its
star count. -/
theorem extract_rating_spec_witness :
    expected4.rating = card4.starCount :=
  extract_rating_spec.1 card4 expected4 (by decide)

/-- C8 counterexample: when the wait finds the consent button clickable
but the activation itself fails, `accept_cookies` propagates that
failure to its caller instead of returning normally — only
`TimeoutException` is caught. -/
theorem accept_cookies_click_failure_cex :
    accept_cookies (Except.ok ()) (Except.error PyError.clickIntercepted) =
        Except.error PyError.clickIntercepted ∧
    accept_cookies (Except.ok ()) (Except.error PyError.clickIntercepted) ≠
        Except.ok () := by
  decide

/-- C8 (amended): if the 3-second wait elapses without the consent
button becoming clickable, `accept_cookies` swallows the timeout and
returns normally; if the button becomes clickable it is activated, and
the activation's outcome — including a raised failure — passes through
to the caller. -/
theorem accept_cookies_amended_spec :
    (∀ click : Except PyError Unit,
       accept_cookies (Except.error ()) click = Except.ok ()) ∧
    (∀ click : Except PyError Unit, accept_cookies (Except.ok ()) click = click) :=
  ⟨fun _ => rfl, fun _ => rfl⟩

/-- C9: on review-count text that is empty or all whitespace,
`split()[0]` raises IndexError — not the ParseError of the integer
coercion. -/
theorem parse_reviews_empty_spec :
    ∀ t : Text, t.all Char.isWhitespace = true →
      parse_reviews t = Except.error PyError.indexError ∧
      PyError.indexError ≠ PyError.valueError := by
  intro t h
  exact ⟨by simp [parse_reviews, pySplit_ws h], by decide⟩

/-- C9 witness: the empty text and a whitespace-only text both raise
IndexError. -/
theorem parse_reviews_empty_spec_witness :
    (parse_reviews (txt "") = Except.error PyError.indexError ∧
       PyError.indexError ≠ PyError.valueError) ∧
    (parse_reviews (txt " \t ") = Except.error PyError.indexError ∧
       PyError.indexError ≠ PyError.valueError) :=
  ⟨parse_reviews_empty_spec (txt "") (by decide),
   parse_reviews_empty_spec (txt " \t ") (by decide)⟩

/-- C10: the price coercion deletes every `$` anywhere in the text, not
only a leading one — its result is invariant under pre-deleting all `$`
characters, and any text whose remainder after that deletion is a valid
decimal numeral parses to that number. -/
theorem parse_price_strips_all_dollars :
    (∀ t : Text, parse_price t = parse_price (t.filter (fun c => c != '$'))) ∧
    (∀ (t : Text) (q : ℚ), pyFloat? (t.filter (fun c => c != '$')) = some q →
       parse_price t = Except.ok q) := by
  constructor
  · intro t
    have hid : (t.filter (fun c => c != '$')).filter (fun c => c != '$') =
        t.filter (fun c => c != '$') :=
      List.filter_eq_self.mpr (fun a ha => (List.mem_filter.mp ha).2)
    simp [parse_price, hid]
  · intro t q h
    simp [parse_price, h]

/-- C10 witness: `"1$0"` parses to 10 and `"$$12"` parses to 12. -/
theorem parse_price_strips_all_dollars_witness :
    parse_price (txt "1$0") = Except.ok (mkRat 10 1) ∧
    parse_price (txt "$$12") = Except.ok (mkRat 12 1) :=
  ⟨parse_price_strips_all_dollars.2 (txt "1$0") (mkRat 10 1) (by decide),
   parse_price_strips_all_dollars.2 (txt "$$12") (mkRat 12 1) (by decide)⟩

end Scrape
